import Mathlib

/-!
Verification development for the service-bus / video-analyzer provider
fragments and the asynchronous state poller they rely on.

Sources embedded:
* internal/services/servicebus/internal.go
  (expandAuthorizationRuleRights, flattenAuthorizationRuleRights,
   authorizationRuleCustomizeDiff, waitForPairedNamespaceReplication's
   refresh closure and state-change configuration)
* internal/services/videoanalyzer/video_analyzer_edge_module_resource.go
  (resourceVideoAnalyzerEdgeModuleRead)

The state-change wait loop itself (pluginsdk.StateChangeConf /
WaitForStateContext) is declared outside the sources; it is modelled from
the specification's poller algorithm (spec section 4.1, error policy
section 7).
-/

namespace Provider

/-! ## Authorization rule rights (servicebus/internal.go, lines 16-53) -/

/-- The SDK's AccessRights is a string-typed enum; its three constants are
Listen = "Listen", SendEnumValue = "Send", Manage = "Manage". -/
abbrev AccessRights := String

def Listen : AccessRights := "Listen"

def SendEnumValue : AccessRights := "Send"

def Manage : AccessRights := "Manage"

/-- The three boolean properties read from the resource data by
expandAuthorizationRuleRights via d.Get. -/
structure AuthRuleResourceData where
  listen : Bool
  send : Bool
  manage : Bool

/-- Embeds expandAuthorizationRuleRights: starts from an empty rights slice
and appends Listen, SendEnumValue, Manage in that order when the
corresponding boolean is set. The Go function returns a non-nil pointer. -/
def expandAuthorizationRuleRights (d : AuthRuleResourceData) : List AccessRights :=
  let rights : List AccessRights := []
  let rights := if d.listen then rights ++ [Listen] else rights
  let rights := if d.send then rights ++ [SendEnumValue] else rights
  let rights := if d.manage then rights ++ [Manage] else rights
  rights

/-- Embeds flattenAuthorizationRuleRights: the input pointer is nilable
(Option); each recognized right sets its flag, unknown rights are only
logged (no flag change); the zero value of every flag is false. -/
def flattenAuthorizationRuleRights (rights : Option (List AccessRights)) :
    Bool × Bool × Bool :=
  match rights with
  | none => (false, false, false)
  | some rs =>
    rs.foldl
      (fun acc right =>
        if right = Listen then (true, acc.2.1, acc.2.2)
        else if right = SendEnumValue then (acc.1, true, acc.2.2)
        else if right = Manage then (acc.1, acc.2.1, true)
        else acc)
      (false, false, false)

/-! ## authorizationRuleCustomizeDiff (servicebus/internal.go, lines 114-128) -/

/-- The (value, ok) pairs returned by d.GetOk for the three properties in
authorizationRuleCustomizeDiff. -/
structure AuthRuleDiffData where
  listen : Bool
  hasListen : Bool
  send : Bool
  hasSend : Bool
  manage : Bool
  hasManage : Bool

/-- Embeds authorizationRuleCustomizeDiff: errors when none of the three
properties is set, then when manage is true while listen or send is false;
otherwise returns nil (none). -/
def authorizationRuleCustomizeDiff (d : AuthRuleDiffData) : Option String :=
  if !d.hasListen && !d.hasSend && !d.hasManage then
    some "One of the listen, send or manage properties needs to be set"
  else if d.manage && (!d.listen || !d.send) then
    some "if manage is set both listen and send must be set to true too"
  else none

/-! ## Video analyzer edge module read (video_analyzer_edge_module_resource.go,
lines 88-114) -/

/-- The parsed edge-module resource ID (parse.EdgeModuleID result). -/
structure EdgeModuleId where
  resourceGroup : String
  videoAnalyzerName : String
  name : String

/-- The outcome of the client.Get call as observed by the read function:
its error, and whether utils.ResponseWasNotFound holds of its response. -/
structure EdgeModuleGetResult where
  notFound : Bool
  err : Option String

/-- The resource data fields touched by the read function. -/
structure EdgeModuleResourceData where
  id : String
  name : String
  resourceGroupName : String
  videoAnalyzerName : String

/-- Embeds resourceVideoAnalyzerEdgeModuleRead. The external calls
(parse.EdgeModuleID, client.Get) are passed in as functions; the result is
the updated resource data paired with the returned error (none = nil).
On a Get error whose response was not-found the ID is cleared and nil is
returned; on any other Get error an error is returned and the data is left
untouched; on success the three name fields are set. -/
def resourceVideoAnalyzerEdgeModuleRead (d : EdgeModuleResourceData)
    (parseId : String → Except String EdgeModuleId)
    (get : EdgeModuleId → EdgeModuleGetResult) :
    EdgeModuleResourceData × Option String :=
  match parseId d.id with
  | .error e => (d, some e)
  | .ok id =>
    let resp := get id
    match resp.err with
    | some e =>
      if resp.notFound then ({ d with id := "" }, none)
      else (d, some ("retrieving: " ++ e))
    | none =>
      ({ d with
          name := id.name,
          resourceGroupName := id.resourceGroup,
          videoAnalyzerName := id.videoAnalyzerName }, none)

/-! ## The asynchronous state poller -/

/-- One probe invocation's report: an opaque payload, the observed state
string, and the probe's own error (none = nil). Matches the spec's
Probe signature () -> (payload, PollState, error); a deterministic probe is
represented by the sequence of its successive reports. -/
structure ProbeResult (α : Type) where
  payload : α
  state : String
  error : Option String
  deriving DecidableEq

/-- Modelled from the spec: the poller's immutable session configuration
(spec section 3) — pending-state set, target-state set, minimum polling
interval and overall timeout. Durations are abstract time units. -/
structure PollConfig where
  pendingStates : List String
  targetStates : List String
  minInterval : Nat
  timeout : Nat
  deriving DecidableEq

/-- Modelled from the spec: the four terminal outcomes of a poll session
(spec section 3). -/
inductive PollResult (α : Type) where
  | Succeeded : α → PollResult α
  | Failed : α → String → PollResult α
  | TimedOut : PollResult α
  | Errored : String → PollResult α
  deriving DecidableEq

/-- Modelled from the spec: the recognized terminal-failure markers —
sentinel states outside both caller-supplied sets (spec section 4.1 step 3
names "Failed" as the example, and sections 7/8 speak of the known-failure
set). -/
def knownFailureStates : List String := ["Failed"]

/-- Cause string reported for a state in neither classification set
(spec section 4.1 step 5: an Errored cause describing the unexpected
state). -/
def unexpectedStateMessage (s : String) : String :=
  "unexpected state: " ++ s

/-- A poll session's observable outcome: the returned result, how many
probe invocations it made, and the total time it slept. -/
structure PollOutcome (α : Type) where
  result : PollResult α
  invocations : Nat
  slept : Nat
  deriving DecidableEq

/-- Modelled from the spec: one poller loop, from probe invocation n
onward with the given elapsed time. Per spec section 4.1: if cumulative
elapsed time exceeds the timeout, TimedOut (step 6); otherwise invoke the
probe; a probe error surfaces Errored at once (fail-fast default of
section 7); a target state yields Succeeded (step 2); a recognized
terminal-failure marker yields Failed (step 3); a pending state sleeps for
minInterval and repeats (step 4); any other state yields Errored (step 5).
The fuel argument makes the recursion structural; waitSession supplies
fuel that cannot run out before the timeout check fires (and exhaustion
itself reports TimedOut, which coincides with the timeout branch). -/
def runFrom {α : Type} (cfg : PollConfig) (probe : Nat → ProbeResult α) :
    Nat → Nat → Nat → PollOutcome α
  | 0, _, _ => ⟨.TimedOut, 0, 0⟩
  | fuel + 1, n, elapsed =>
    if cfg.timeout < elapsed then ⟨.TimedOut, 0, 0⟩
    else
      let r := probe n
      match r.error with
      | some e => ⟨.Errored e, 1, 0⟩
      | none =>
        if r.state ∈ cfg.targetStates then ⟨.Succeeded r.payload, 1, 0⟩
        else if r.state ∈ knownFailureStates then ⟨.Failed r.payload r.state, 1, 0⟩
        else if r.state ∈ cfg.pendingStates then
          let rest := runFrom cfg probe fuel (n + 1) (elapsed + cfg.minInterval)
          ⟨rest.result, rest.invocations + 1, rest.slept + cfg.minInterval⟩
        else ⟨.Errored (unexpectedStateMessage r.state), 1, 0⟩

/-- Modelled from the spec: a whole poll session, starting at the first
probe invocation with zero elapsed time. -/
def waitSession {α : Type} (cfg : PollConfig) (probe : Nat → ProbeResult α) :
    PollOutcome α :=
  runFrom cfg probe (cfg.timeout + 1) 0 0

/-- Modelled from the spec: waitForState(config, probe) — the poller's
public contract, returning the session's PollResult. -/
def waitForState {α : Type} (cfg : PollConfig) (probe : Nat → ProbeResult α) :
    PollResult α :=
  (waitSession cfg probe).result

/-! ## waitForPairedNamespaceReplication's state-change wait
(servicebus/internal.go, lines 150-170) -/

/-- The ArmDisasterRecoveryProperties field the refresh closure inspects:
its provisioning state (the SDK constants Accepted, Succeeded, Failed are
the strings "Accepted", "Succeeded", "Failed"). -/
structure ArmDisasterRecoveryProperties where
  provisioningState : String
  deriving DecidableEq

/-- The disaster-recovery-config read response: its properties pointer may
be nil. -/
structure DisasterRecoveryConfigResponse where
  armDisasterRecoveryProperties : Option ArmDisasterRecoveryProperties
  deriving DecidableEq

/-- Embeds the Refresh closure of waitForPairedNamespaceReplication's
StateChangeConf: the disasterRecoveryClient.Get call is passed in as its
result. A Get error reports state "error" with an error; a Failed
provisioning state reports state "failed" with an error; otherwise the
provisioning state is reported verbatim with nil error; nil properties
report state "nil" with an error. The payload is the read response (nil on
Get error). -/
def pairedNamespaceRefresh
    (get : Except String DisasterRecoveryConfigResponse) :
    ProbeResult (Option DisasterRecoveryConfigResponse) :=
  match get with
  | .error e =>
    ⟨none, "error", some ("wait read Service Bus Namespace Disaster Recovery Configs: " ++ e)⟩
  | .ok read =>
    match read.armDisasterRecoveryProperties with
    | some props =>
      if props.provisioningState = "Failed" then
        ⟨some read, "failed",
          some "replication for Service Bus Namespace Disaster Recovery Configs failed"⟩
      else ⟨some read, props.provisioningState, none⟩
    | none =>
      ⟨some read, "nil",
        some "waiting for replication error: provisioning state is nil"⟩

/-- Embeds the StateChangeConf literal of waitForPairedNamespaceReplication:
Pending = [Accepted], Target = [Succeeded], MinTimeout = 30 seconds,
Timeout = the caller-supplied timeout (here in seconds). -/
def pairedNamespaceReplicationConf (timeout : Nat) : PollConfig :=
  { pendingStates := ["Accepted"]
    targetStates := ["Succeeded"]
    minInterval := 30
    timeout := timeout }

/-- A probe every one of whose reports is pending: no error, state in the
pending set and outside the target and known-failure sets. -/
def alwaysPending {α : Type} (cfg : PollConfig) (probe : Nat → ProbeResult α) : Prop :=
  ∀ k, (probe k).error = none ∧ (probe k).state ∈ cfg.pendingStates ∧
    (probe k).state ∉ cfg.targetStates ∧ (probe k).state ∉ knownFailureStates

/-! ## Concrete fixtures used by witnesses and counterexamples -/

/-- The state reported by the n-th probe call of the replay
"Accepted", "Accepted", "Succeeded", "Succeeded", ... -/
def replayedState (n : Nat) : String :=
  if n ≤ 1 then "Accepted" else "Succeeded"

/-- A deterministic probe replaying "Accepted", "Accepted", "Succeeded"
with payload n and no error. -/
def replayedProbe : Nat → ProbeResult Nat :=
  fun n => ⟨n, replayedState n, none⟩

/-- A configuration whose timeout budget (10) is smaller than one polling
interval (30). -/
def shortBudgetConf : PollConfig :=
  ⟨["Accepted"], ["Succeeded"], 30, 10⟩

/-- A probe that reports the pending state "Accepted" forever. -/
def pendingForeverProbe : Nat → ProbeResult Nat :=
  fun n => ⟨n, "Accepted", none⟩

/-- A probe that reports the terminal-failure state "Failed" at once. -/
def failedProbe : Nat → ProbeResult Nat :=
  fun n => ⟨n, "Failed", none⟩

/-- A probe that reports a state no classification set contains. -/
def strangeStateProbe : Nat → ProbeResult Nat :=
  fun n => ⟨n, "FrobnicatingXYZ", none⟩

/-- The probe obtained from the embedded refresh closure when every
underlying Get call fails. -/
def erroringGetProbe : Nat → ProbeResult (Option DisasterRecoveryConfigResponse) :=
  fun _ => pairedNamespaceRefresh (.error "connection refused")

/-- First replay of a constant successful probe. -/
def probeReplayA : Nat → ProbeResult Nat :=
  fun _ => ⟨0, "Succeeded", none⟩

/-- Second, independent replay of the same probe sequence. -/
def probeReplayB : Nat → ProbeResult Nat :=
  fun _ => ⟨0, "Succeeded", none⟩

/-- A concrete parsed edge-module ID. -/
def edgeModuleIdW : EdgeModuleId := ⟨"rg", "va", "mod"⟩

/-- Concrete stored resource data with a non-empty ID. -/
def edgeModuleDataW : EdgeModuleResourceData := ⟨"stored-id", "", "", ""⟩

/-- A parser that accepts every ID string. -/
def edgeModuleParseW : String → Except String EdgeModuleId :=
  fun _ => .ok edgeModuleIdW

/-- A Get call that fails with a not-found response. -/
def edgeModuleGetW : EdgeModuleId → EdgeModuleGetResult :=
  fun _ => ⟨true, some "boom"⟩

/-! ## Helper lemmas on the poller loop -/

/-- Unfolding lemma: while time remains, a pending report makes the loop
sleep one interval and continue with the next invocation. -/
theorem runFrom_pending_step {α : Type} (cfg : PollConfig)
    (probe : Nat → ProbeResult α) (fuel n elapsed : Nat)
    (htime : elapsed ≤ cfg.timeout) (herr : (probe n).error = none)
    (htarget : (probe n).state ∉ cfg.targetStates)
    (hfail : (probe n).state ∉ knownFailureStates)
    (hpend : (probe n).state ∈ cfg.pendingStates) :
    runFrom cfg probe (fuel + 1) n elapsed =
      ⟨(runFrom cfg probe fuel (n + 1) (elapsed + cfg.minInterval)).result,
       (runFrom cfg probe fuel (n + 1) (elapsed + cfg.minInterval)).invocations + 1,
       (runFrom cfg probe fuel (n + 1) (elapsed + cfg.minInterval)).slept + cfg.minInterval⟩ := by
  simp [runFrom, Nat.not_lt.mpr htime, herr, htarget, hfail, hpend]

/-- Unfolding lemma: while time remains, a target-state report ends the
session at once with Succeeded. -/
theorem runFrom_target_step {α : Type} (cfg : PollConfig)
    (probe : Nat → ProbeResult α) (fuel n elapsed : Nat)
    (htime : elapsed ≤ cfg.timeout) (herr : (probe n).error = none)
    (htarget : (probe n).state ∈ cfg.targetStates) :
    runFrom cfg probe (fuel + 1) n elapsed =
      ⟨.Succeeded (probe n).payload, 1, 0⟩ := by
  simp [runFrom, Nat.not_lt.mpr htime, herr, htarget]

/-- An always-pending probe can only drive the loop to TimedOut. -/
theorem runFrom_alwaysPending_timedOut {α : Type} (cfg : PollConfig)
    (probe : Nat → ProbeResult α) (h : alwaysPending cfg probe) :
    ∀ fuel n elapsed, (runFrom cfg probe fuel n elapsed).result = .TimedOut := by
  intro fuel
  induction fuel with
  | zero => intro n elapsed; rfl
  | succ fuel ih =>
    intro n elapsed
    by_cases ht : cfg.timeout < elapsed
    · simp [runFrom, ht]
    · obtain ⟨he, hp, hnt, hnf⟩ := h n
      rw [runFrom_pending_step cfg probe fuel n elapsed (Nat.not_lt.mp ht) he hnt hnf hp]
      exact ih (n + 1) (elapsed + cfg.minInterval)

/-- With an always-pending probe the loop's total sleep never carries the
elapsed clock past timeout plus one interval. -/
theorem runFrom_alwaysPending_slept_le {α : Type} (cfg : PollConfig)
    (probe : Nat → ProbeResult α) (h : alwaysPending cfg probe) :
    ∀ fuel n elapsed, elapsed + (runFrom cfg probe fuel n elapsed).slept ≤
      max elapsed (cfg.timeout + cfg.minInterval) := by
  intro fuel
  induction fuel with
  | zero => intro n elapsed; simp [runFrom]
  | succ fuel ih =>
    intro n elapsed
    by_cases ht : cfg.timeout < elapsed
    · simp [runFrom, ht]
    · obtain ⟨he, hp, hnt, hnf⟩ := h n
      rw [runFrom_pending_step cfg probe fuel n elapsed (Nat.not_lt.mp ht) he hnt hnf hp]
      have hrec := ih (n + 1) (elapsed + cfg.minInterval)
      have hle : elapsed ≤ cfg.timeout := Nat.not_lt.mp ht
      simp only at hrec ⊢
      omega

/-- With an always-pending probe and enough fuel the loop's total sleep
carries the elapsed clock past the timeout. -/
theorem runFrom_alwaysPending_slept_gt {α : Type} (cfg : PollConfig)
    (probe : Nat → ProbeResult α) (h : alwaysPending cfg probe) :
    ∀ fuel n elapsed, cfg.timeout < elapsed + fuel * cfg.minInterval →
      cfg.timeout < elapsed + (runFrom cfg probe fuel n elapsed).slept := by
  intro fuel
  induction fuel with
  | zero => intro n elapsed hf; simpa [runFrom] using hf
  | succ fuel ih =>
    intro n elapsed hf
    by_cases ht : cfg.timeout < elapsed
    · simp only [runFrom, if_pos ht]
      omega
    · obtain ⟨he, hp, hnt, hnf⟩ := h n
      rw [runFrom_pending_step cfg probe fuel n elapsed (Nat.not_lt.mp ht) he hnt hnf hp]
      rw [Nat.succ_mul] at hf
      have hrec := ih (n + 1) (elapsed + cfg.minInterval) (by omega)
      simp only at hrec ⊢
      omega

/-! ## Claim theorems -/

/-- C1: every poll session returns exactly one definitive outcome — for
every configuration and probe, waitForState terminates with one of the
four PollResult variants (Succeeded, Failed, TimedOut or Errored); there
is no still-pending or absent outcome and nothing is thrown past the
component boundary. -/
theorem waitForState_definitive_outcome {α : Type} (cfg : PollConfig)
    (probe : Nat → ProbeResult α) :
    (∃ p, waitForState cfg probe = .Succeeded p) ∨
    (∃ p r, waitForState cfg probe = .Failed p r) ∨
    waitForState cfg probe = .TimedOut ∨
    (∃ c, waitForState cfg probe = .Errored c) := by
  rcases h : waitForState cfg probe with p | ⟨p, r⟩ | _ | c
  · exact Or.inl ⟨p, rfl⟩
  · exact Or.inr (Or.inl ⟨p, r, rfl⟩)
  · exact Or.inr (Or.inr (Or.inl rfl))
  · exact Or.inr (Or.inr (Or.inr ⟨c, rfl⟩))

/-- C3: whenever the probe reports the recognized terminal-failure state
"Failed" (outside the target set) while time remains, the loop returns
Failed on that very invocation — one probe call, no sleep — regardless of
the remaining timeout budget. -/
theorem runFrom_failed_state_immediate {α : Type} (cfg : PollConfig)
    (probe : Nat → ProbeResult α) (fuel n elapsed : Nat)
    (htime : elapsed ≤ cfg.timeout) (herr : (probe n).error = none)
    (hstate : (probe n).state = "Failed")
    (htarget : "Failed" ∉ cfg.targetStates) :
    runFrom cfg probe (fuel + 1) n elapsed =
      ⟨.Failed (probe n).payload "Failed", 1, 0⟩ := by
  simp [runFrom, Nat.not_lt.mpr htime, herr, hstate, htarget, knownFailureStates]

/-- Witness for C3 at a concrete point: a probe reporting "Failed" with a
generous remaining budget stops at once with Failed. -/
theorem runFrom_failed_state_immediate_witness :
    0 ≤ (pairedNamespaceReplicationConf 300).timeout ∧
    (failedProbe 0).error = none ∧
    (failedProbe 0).state = "Failed" ∧
    "Failed" ∉ (pairedNamespaceReplicationConf 300).targetStates ∧
    runFrom (pairedNamespaceReplicationConf 300) failedProbe 8 0 0 =
      ⟨.Failed 0 "Failed", 1, 0⟩ :=
  ⟨Nat.zero_le _, rfl, rfl, by decide,
    runFrom_failed_state_immediate (pairedNamespaceReplicationConf 300)
      failedProbe 7 0 0 (Nat.zero_le _) rfl rfl (by decide)⟩

/-- C4: whenever the probe reports a state in neither the pending set, the
target set nor the known-terminal-failure set while time remains, the loop
returns Errored describing the unexpected state on that very invocation —
it never silently retries. -/
theorem runFrom_unrecognized_state_errors {α : Type} (cfg : PollConfig)
    (probe : Nat → ProbeResult α) (fuel n elapsed : Nat)
    (htime : elapsed ≤ cfg.timeout) (herr : (probe n).error = none)
    (htarget : (probe n).state ∉ cfg.targetStates)
    (hfail : (probe n).state ∉ knownFailureStates)
    (hpend : (probe n).state ∉ cfg.pendingStates) :
    runFrom cfg probe (fuel + 1) n elapsed =
      ⟨.Errored (unexpectedStateMessage (probe n).state), 1, 0⟩ := by
  simp [runFrom, Nat.not_lt.mpr htime, herr, htarget, hfail, hpend]

/-- Witness for C4: a probe reporting "FrobnicatingXYZ" makes the loop
return Errored naming that state after a single invocation. -/
theorem runFrom_unrecognized_state_errors_witness :
    0 ≤ (pairedNamespaceReplicationConf 300).timeout ∧
    (strangeStateProbe 0).error = none ∧
    (strangeStateProbe 0).state ∉ (pairedNamespaceReplicationConf 300).targetStates ∧
    (strangeStateProbe 0).state ∉ knownFailureStates ∧
    (strangeStateProbe 0).state ∉ (pairedNamespaceReplicationConf 300).pendingStates ∧
    runFrom (pairedNamespaceReplicationConf 300) strangeStateProbe 8 0 0 =
      ⟨.Errored (unexpectedStateMessage "FrobnicatingXYZ"), 1, 0⟩ :=
  ⟨Nat.zero_le _, rfl, by decide, by decide, by decide,
    runFrom_unrecognized_state_errors (pairedNamespaceReplicationConf 300)
      strangeStateProbe 7 0 0 (Nat.zero_le _) rfl (by decide) (by decide) (by decide)⟩

/-- C5: whenever the probe invocation itself fails (its error is non-nil)
while time remains, the loop surfaces Errored on that very invocation —
fail-fast, not treated as pending. -/
theorem runFrom_probe_error_fail_fast {α : Type} (cfg : PollConfig)
    (probe : Nat → ProbeResult α) (fuel n elapsed : Nat) (e : String)
    (htime : elapsed ≤ cfg.timeout) (herr : (probe n).error = some e) :
    runFrom cfg probe (fuel + 1) n elapsed = ⟨.Errored e, 1, 0⟩ := by
  simp [runFrom, Nat.not_lt.mpr htime, herr]

/-- Witness for C5: through the embedded refresh closure, a failing Get
call makes the loop surface Errored immediately. -/
theorem runFrom_probe_error_fail_fast_witness :
    0 ≤ (pairedNamespaceReplicationConf 300).timeout ∧
    (erroringGetProbe 0).error =
      some ("wait read Service Bus Namespace Disaster Recovery Configs: " ++
        "connection refused") ∧
    runFrom (pairedNamespaceReplicationConf 300) erroringGetProbe 8 0 0 =
      ⟨.Errored ("wait read Service Bus Namespace Disaster Recovery Configs: " ++
        "connection refused"), 1, 0⟩ :=
  ⟨Nat.zero_le _, rfl,
    runFrom_probe_error_fail_fast (pairedNamespaceReplicationConf 300)
      erroringGetProbe 7 0 0 _ (Nat.zero_le _) rfl⟩

/-- C2 (amended): with pendingStates = ["Accepted"], targetStates =
["Succeeded"], a positive interval and a timeout budget admitting two
sleeps (2 * minInterval ≤ timeout), a probe replaying "Accepted",
"Accepted", "Succeeded" yields Succeeded after exactly 3 invocations
(sleeping twice); and for every configuration, a probe whose first call
reports a target state with no error yields Succeeded after exactly 1
invocation with no sleep. -/
theorem waitSession_succeeded_counts :
    (∀ (α : Type) (cfg : PollConfig) (probe : Nat → ProbeResult α),
      cfg.pendingStates = ["Accepted"] →
      cfg.targetStates = ["Succeeded"] →
      1 ≤ cfg.minInterval →
      2 * cfg.minInterval ≤ cfg.timeout →
      (probe 0).error = none → (probe 0).state = "Accepted" →
      (probe 1).error = none → (probe 1).state = "Accepted" →
      (probe 2).error = none → (probe 2).state = "Succeeded" →
      waitSession cfg probe =
        ⟨.Succeeded (probe 2).payload, 3, cfg.minInterval + cfg.minInterval⟩) ∧
    (∀ (α : Type) (cfg : PollConfig) (probe : Nat → ProbeResult α),
      (probe 0).error = none → (probe 0).state ∈ cfg.targetStates →
      waitSession cfg probe = ⟨.Succeeded (probe 0).payload, 1, 0⟩) := by
  constructor
  · intro α cfg probe hpend htarg hm ht h0e h0s h1e h1s h2e h2s
    have h0t : (probe 0).state ∉ cfg.targetStates := by rw [h0s, htarg]; decide
    have h0f : (probe 0).state ∉ knownFailureStates := by rw [h0s]; decide
    have h0p : (probe 0).state ∈ cfg.pendingStates := by rw [h0s, hpend]; decide
    have h1t : (probe 1).state ∉ cfg.targetStates := by rw [h1s, htarg]; decide
    have h1f : (probe 1).state ∉ knownFailureStates := by rw [h1s]; decide
    have h1p : (probe 1).state ∈ cfg.pendingStates := by rw [h1s, hpend]; decide
    have h2t : (probe 2).state ∈ cfg.targetStates := by rw [h2s, htarg]; decide
    have hmt : cfg.minInterval ≤ cfg.timeout := by omega
    have h2m : cfg.minInterval + cfg.minInterval ≤ cfg.timeout := by omega
    obtain ⟨t, htt⟩ : ∃ t, cfg.timeout = t + 2 := ⟨cfg.timeout - 2, by omega⟩
    show runFrom cfg probe (cfg.timeout + 1) 0 0 = _
    rw [htt]
    rw [runFrom_pending_step cfg probe (t + 2) 0 0 (Nat.zero_le _) h0e h0t h0f h0p]
    rw [show t + 2 = t + 1 + 1 by omega]
    rw [runFrom_pending_step cfg probe (t + 1) 1 (0 + cfg.minInterval)
      (by omega) h1e h1t h1f h1p]
    rw [show t + 1 = t + 0 + 1 by omega]
    rw [runFrom_target_step cfg probe (t + 0) 2 (0 + cfg.minInterval + cfg.minInterval)
      (by omega) h2e h2t]
    simp
  · intro α cfg probe h0e h0t
    show runFrom cfg probe (cfg.timeout + 1) 0 0 = _
    rw [runFrom_target_step cfg probe cfg.timeout 0 0 (Nat.zero_le _) h0e h0t]

/-- Counterexample for C2 as frozen: a configuration with pendingStates =
["Accepted"], targetStates = ["Succeeded"] but timeout 10 shorter than the
interval 30 makes the replayed probe "Accepted", "Accepted", "Succeeded"
end in TimedOut after a single invocation, not Succeeded after three. -/
theorem waitSession_succeeded_counts_counterexample :
    shortBudgetConf.pendingStates = ["Accepted"] ∧
    shortBudgetConf.targetStates = ["Succeeded"] ∧
    (∀ n, (replayedProbe n).error = none) ∧
    (replayedProbe 0).state = "Accepted" ∧
    (replayedProbe 1).state = "Accepted" ∧
    (replayedProbe 2).state = "Succeeded" ∧
    waitSession shortBudgetConf replayedProbe = ⟨.TimedOut, 1, 30⟩ := by
  refine ⟨rfl, rfl, fun n => rfl, rfl, rfl, rfl, ?_⟩
  decide

/-- Witness for C2 (amended): with the source's 30-unit interval and a
300-unit budget, the replay succeeds after exactly 3 invocations. -/
theorem waitSession_succeeded_counts_witness :
    (pairedNamespaceReplicationConf 300).pendingStates = ["Accepted"] ∧
    (pairedNamespaceReplicationConf 300).targetStates = ["Succeeded"] ∧
    1 ≤ (pairedNamespaceReplicationConf 300).minInterval ∧
    2 * (pairedNamespaceReplicationConf 300).minInterval ≤
      (pairedNamespaceReplicationConf 300).timeout ∧
    (∀ n, (replayedProbe n).error = none) ∧
    waitSession (pairedNamespaceReplicationConf 300) replayedProbe =
      ⟨.Succeeded 2, 3, 60⟩ :=
  ⟨rfl, rfl, by decide, by decide, fun _ => rfl,
    waitSession_succeeded_counts.1 Nat (pairedNamespaceReplicationConf 300)
      replayedProbe rfl rfl (by decide) (by decide) rfl rfl rfl rfl rfl rfl⟩

/-- C6: a probe that always reports a pending state makes the session
terminate with TimedOut once the cumulative elapsed time exceeds the
timeout, overshooting the deadline by at most one extra minInterval — it
does not loop forever. -/
theorem waitSession_alwaysPending_timedOut {α : Type} (cfg : PollConfig)
    (probe : Nat → ProbeResult α) (h : alwaysPending cfg probe)
    (hm : 1 ≤ cfg.minInterval) :
    (waitSession cfg probe).result = .TimedOut ∧
    cfg.timeout < (waitSession cfg probe).slept ∧
    (waitSession cfg probe).slept ≤ cfg.timeout + cfg.minInterval := by
  refine ⟨runFrom_alwaysPending_timedOut cfg probe h _ _ _, ?_, ?_⟩
  · have hmul : (cfg.timeout + 1) * 1 ≤ (cfg.timeout + 1) * cfg.minInterval :=
      Nat.mul_le_mul_left _ hm
    rw [Nat.mul_one] at hmul
    have := runFrom_alwaysPending_slept_gt cfg probe h (cfg.timeout + 1) 0 0
      (by omega)
    simpa [waitSession] using this
  · have := runFrom_alwaysPending_slept_le cfg probe h (cfg.timeout + 1) 0 0
    simp only [waitSession] at this ⊢
    omega

/-- Witness for C6: a perpetually "Accepted" probe with timeout 100 and
interval 30 times out, sleeping more than 100 but at most 130 units. -/
theorem waitSession_alwaysPending_timedOut_witness :
    alwaysPending (pairedNamespaceReplicationConf 100) pendingForeverProbe ∧
    1 ≤ (pairedNamespaceReplicationConf 100).minInterval ∧
    ((waitSession (pairedNamespaceReplicationConf 100) pendingForeverProbe).result =
        .TimedOut ∧
      (pairedNamespaceReplicationConf 100).timeout <
        (waitSession (pairedNamespaceReplicationConf 100) pendingForeverProbe).slept ∧
      (waitSession (pairedNamespaceReplicationConf 100) pendingForeverProbe).slept ≤
        (pairedNamespaceReplicationConf 100).timeout +
          (pairedNamespaceReplicationConf 100).minInterval) :=
  have hap : alwaysPending (pairedNamespaceReplicationConf 100) pendingForeverProbe :=
    fun _ => ⟨rfl,
      (by decide : ("Accepted" : String) ∈ (["Accepted"] : List String)),
      (by decide : ("Accepted" : String) ∉ (["Succeeded"] : List String)),
      (by decide : ("Accepted" : String) ∉ knownFailureStates)⟩
  ⟨hap, by decide,
    waitSession_alwaysPending_timedOut (pairedNamespaceReplicationConf 100)
      pendingForeverProbe hap (by decide)⟩

/-- C7: the poller is deterministic — the same configuration driven by two
probes that replay the same deterministic report sequence produces
identical PollResult values. -/
theorem waitForState_deterministic {α : Type} (cfg : PollConfig)
    (probe1 probe2 : Nat → ProbeResult α)
    (h : ∀ n, probe1 n = probe2 n) :
    waitForState cfg probe1 = waitForState cfg probe2 := by
  have hp : probe1 = probe2 := funext h
  rw [hp]

/-- Witness for C7: two independent replays of the same constant sequence
yield identical results. -/
theorem waitForState_deterministic_witness :
    (∀ n, probeReplayA n = probeReplayB n) ∧
    waitForState (pairedNamespaceReplicationConf 300) probeReplayA =
      waitForState (pairedNamespaceReplicationConf 300) probeReplayB :=
  ⟨fun _ => rfl,
    waitForState_deterministic (pairedNamespaceReplicationConf 300)
      probeReplayA probeReplayB (fun _ => rfl)⟩

/-- C8: round-trip of authorization-rule rights — flattening the expansion
of any (listen, send, manage) triple returns exactly that triple, and
flattening a nil rights list returns (false, false, false). -/
theorem authorizationRuleRights_round_trip :
    (∀ d : AuthRuleResourceData,
      flattenAuthorizationRuleRights (some (expandAuthorizationRuleRights d)) =
        (d.listen, d.send, d.manage)) ∧
    flattenAuthorizationRuleRights none = (false, false, false) := by
  refine ⟨fun d => ?_, rfl⟩
  rcases d with ⟨l, s, m⟩
  cases l <;> cases s <;> cases m <;> rfl

/-- C9: authorizationRuleCustomizeDiff returns an error exactly when none
of the listen/send/manage properties is set, or manage is true while
listen or send is false; otherwise it returns nil. -/
theorem authorizationRuleCustomizeDiff_error_iff (d : AuthRuleDiffData) :
    (authorizationRuleCustomizeDiff d).isSome = true ↔
      ((d.hasListen = false ∧ d.hasSend = false ∧ d.hasManage = false) ∨
       (d.manage = true ∧ (d.listen = false ∨ d.send = false))) := by
  rcases d with ⟨l, hl, s, hs, m, hm⟩
  cases l <;> cases hl <;> cases s <;> cases hs <;> cases m <;> cases hm <;> decide

/-- C10: when the Get call of resourceVideoAnalyzerEdgeModuleRead fails,
a not-found response clears the stored ID and returns nil, and any other
failure returns an error and leaves the resource data unchanged. -/
theorem edgeModuleRead_get_failure (d : EdgeModuleResourceData)
    (parseId : String → Except String EdgeModuleId)
    (get : EdgeModuleId → EdgeModuleGetResult) (id : EdgeModuleId) (e : String)
    (hparse : parseId d.id = .ok id) (herr : (get id).err = some e) :
    ((get id).notFound = true →
      resourceVideoAnalyzerEdgeModuleRead d parseId get =
        ({ d with id := "" }, none)) ∧
    ((get id).notFound = false →
      resourceVideoAnalyzerEdgeModuleRead d parseId get =
        (d, some ("retrieving: " ++ e))) := by
  constructor <;> intro hnf <;>
    simp [resourceVideoAnalyzerEdgeModuleRead, hparse, herr, hnf]

/-- Witness for C10: a concrete not-found Get failure clears the stored ID
and returns nil. -/
theorem edgeModuleRead_get_failure_witness :
    edgeModuleParseW edgeModuleDataW.id = .ok edgeModuleIdW ∧
    (edgeModuleGetW edgeModuleIdW).err = some "boom" ∧
    (edgeModuleGetW edgeModuleIdW).notFound = true ∧
    resourceVideoAnalyzerEdgeModuleRead edgeModuleDataW edgeModuleParseW edgeModuleGetW =
      ({ edgeModuleDataW with id := "" }, none) :=
  ⟨rfl, rfl, rfl,
    (edgeModuleRead_get_failure edgeModuleDataW edgeModuleParseW edgeModuleGetW
      edgeModuleIdW "boom" rfl rfl).1 rfl⟩

end Provider
